import Mathlib

/-
Verification development for the aggpaydata repository.

The Python sources (tgbot.py, main.py, aggregation.py) are shallowly
embedded below.  Dictionaries, strings, integers, lists and None are
modelled by the inductive type PyVal; Python exceptions that the code
can raise or catch are modelled by PyErr, and fallible code returns
Except PyErr.  Machine details that the claims do not touch (the HTTP
session, MongoDB, the asyncio event loop) are left out; everything the
claims mention is translated function by function from the source.
-/

set_option maxRecDepth 4096

/-- The exceptions that the embedded code can raise or catch. -/
inductive PyErr where
  | nameError
  | typeError
  | keyError
  | attributeError
  | valueError
  | jsonDecodeError
deriving DecidableEq, Repr

/-- Python values appearing in Telegram update payloads and parsed JSON. -/
inductive PyVal where
  | none
  | bool (b : Bool)
  | int (n : Int)
  | str (s : String)
  | list (l : List PyVal)
  | dict (d : List (String × PyVal))
deriving Repr

/-- First binding of a key in an association list, as a Python dict lookup. -/
def assocGet {α : Type} (l : List (String × α)) (k : String) : Option α :=
  match l with
  | [] => Option.none
  | (k2, v) :: rest => if k2 = k then Option.some v else assocGet rest k

/-- Python truthiness of a value. -/
def pyTruthy : PyVal → Bool
  | PyVal.none => false
  | PyVal.bool b => b
  | PyVal.int n => decide (n ≠ 0)
  | PyVal.str s => !s.isEmpty
  | PyVal.list l => !l.isEmpty
  | PyVal.dict d => !d.isEmpty

/-- Subscripting v[k] with a string key: a dict yields the value or raises
KeyError; every other value raises TypeError (string and list indices must
be integers, the rest are not subscriptable). -/
def pySubscr (v : PyVal) (k : String) : Except PyErr PyVal :=
  match v with
  | PyVal.dict d =>
    match assocGet d k with
    | Option.some x => Except.ok x
    | Option.none => Except.error PyErr.keyError
  | _ => Except.error PyErr.typeError

/-- The dict method v.get(k): the value, or None when the key is absent;
raises AttributeError on a non-dict receiver. -/
def pyGet (v : PyVal) (k : String) : Except PyErr PyVal :=
  match v with
  | PyVal.dict d => Except.ok ((assocGet d k).getD PyVal.none)
  | _ => Except.error PyErr.attributeError

/-- Normalize a Python slice index against a length: negative indices count
from the end, and the result is clamped to the interval from 0 to n. -/
def sliceNorm (n : Nat) (i : Int) : Nat :=
  if i < 0 then (i + n).toNat else min i.toNat n

/-- Python string slice s[a:b]. -/
def pySlice (s : String) (a b : Int) : String :=
  let cs := s.toList
  let n := cs.length
  let a2 := sliceNorm n a
  let b2 := sliceNorm n b
  String.mk ((cs.drop a2).take (b2 - a2))

/-- Python string slice s[a:]. -/
def pySliceFrom (s : String) (a : Int) : String :=
  String.mk (s.toList.drop (sliceNorm s.toList.length a))

/-- Python str.capitalize: first character uppercased, the rest lowercased. -/
def pyCapitalize (s : String) : String :=
  match s.toList with
  | [] => ("" : String)
  | c :: rest => String.mk (c.toUpper :: rest.map Char.toLower)

/-- Python message.startswith with the one character command marker. -/
def startsWithSlash (s : String) : Bool :=
  match s.toList with
  | [] => false
  | c :: _ => decide (c = ('/'))

/-
JSON deserialization.  The source calls json.loads from the Python
standard library, which is not part of this repository.
-/

/-- The double quote character. -/
def chQuote : Char := Char.ofNat 34

/-- The single quote character. -/
def chSQuote : Char := Char.ofNat 39

/-- The opening curly brace character. -/
def chLBrace : Char := Char.ofNat 123

/-- The closing curly brace character. -/
def chRBrace : Char := Char.ofNat 125

/-- The backslash character. -/
def chBackslash : Char := Char.ofNat 92

/-- Drop leading JSON whitespace. -/
def skipWs : List Char → List Char
  | [] => []
  | c :: rest =>
    if c = (' ') ∨ c = Char.ofNat 10 ∨ c = Char.ofNat 9 ∨ c = Char.ofNat 13 then
      skipWs rest
    else c :: rest

/-- Decode a JSON string escape character. -/
def escChar (c : Char) : Except Unit Char :=
  if c = chQuote then Except.ok chQuote
  else if c = chBackslash then Except.ok chBackslash
  else if c = ('/') then Except.ok ('/')
  else if c = ('n') then Except.ok (Char.ofNat 10)
  else if c = ('t') then Except.ok (Char.ofNat 9)
  else if c = ('r') then Except.ok (Char.ofNat 13)
  else if c = ('b') then Except.ok (Char.ofNat 8)
  else if c = ('f') then Except.ok (Char.ofNat 12)
  else Except.error ()

/-- Parse the body of a JSON string after its opening double quote; the
model does not support unicode escapes, which no embedded input uses. -/
def parseStrChars : List Char → Except Unit (List Char × List Char)
  | [] => Except.error ()
  | c :: rest =>
    if c = chQuote then Except.ok ([], rest)
    else if c = chBackslash then
      match rest with
      | [] => Except.error ()
      | e :: rest2 =>
        match escChar e with
        | Except.error u => Except.error u
        | Except.ok d =>
          match parseStrChars rest2 with
          | Except.error u => Except.error u
          | Except.ok (s, r) => Except.ok (d :: s, r)
    else
      match parseStrChars rest with
      | Except.error u => Except.error u
      | Except.ok (s, r) => Except.ok (c :: s, r)

/-- Consume a run of decimal digits, accumulating their value. -/
def grabDigits : List Char → Nat → (Nat × List Char)
  | [], acc => (acc, [])
  | c :: rest, acc =>
    if c.isDigit then grabDigits rest (acc * 10 + (c.toNat - 48))
    else (acc, c :: rest)

/-- Parse a JSON unsigned integer; fractions and exponents are not
supported by the model, which no embedded input uses. -/
def parseNum (cs : List Char) : Except Unit (Nat × List Char) :=
  match cs with
  | [] => Except.error ()
  | c :: rest =>
    if c.isDigit then
      let p := grabDigits rest (c.toNat - 48)
      match p.2 with
      | [] => Except.ok p
      | d :: _ =>
        if d = ('.') ∨ d = ('e') ∨ d = ('E') then Except.error ()
        else Except.ok p
    else Except.error ()

/-- Strip a literal character sequence from the front of the input. -/
def stripLit : List Char → List Char → Option (List Char)
  | [], cs => Option.some cs
  | l :: ls, c :: cs => if c = l then stripLit ls cs else Option.none
  | _ :: _, [] => Option.none

mutual

/-- Modelled from the spec: strict JSON parsing of one value, as performed
by json.loads from the Python standard library (absent from src).  The
supported fragment is objects, arrays, double-quoted strings, integers,
true, false and null; the fuel argument bounds recursion depth. -/
def parseV : Nat → List Char → Except Unit (PyVal × List Char)
  | 0, _ => Except.error ()
  | Nat.succ fuel, cs =>
    match skipWs cs with
    | [] => Except.error ()
    | c :: rest =>
      if c = chQuote then
        match parseStrChars rest with
        | Except.error u => Except.error u
        | Except.ok (s, r) => Except.ok (PyVal.str (String.mk s), r)
      else if c = chLBrace then
        match skipWs rest with
        | c2 :: r2 =>
          if c2 = chRBrace then Except.ok (PyVal.dict [], r2)
          else
            match parseMembers fuel (c2 :: r2) with
            | Except.error u => Except.error u
            | Except.ok (ms, r) => Except.ok (PyVal.dict ms, r)
        | [] => Except.error ()
      else if c = ('[') then
        match skipWs rest with
        | c2 :: r2 =>
          if c2 = (']') then Except.ok (PyVal.list [], r2)
          else
            match parseItems fuel (c2 :: r2) with
            | Except.error u => Except.error u
            | Except.ok (vs, r) => Except.ok (PyVal.list vs, r)
        | [] => Except.error ()
      else if c = ('-') then
        match parseNum rest with
        | Except.error u => Except.error u
        | Except.ok (n, r) => Except.ok (PyVal.int (-(n : Int)), r)
      else
        match stripLit (("true").toList) (c :: rest) with
        | Option.some r => Except.ok (PyVal.bool true, r)
        | Option.none =>
        match stripLit (("false").toList) (c :: rest) with
        | Option.some r => Except.ok (PyVal.bool false, r)
        | Option.none =>
        match stripLit (("null").toList) (c :: rest) with
        | Option.some r => Except.ok (PyVal.none, r)
        | Option.none =>
        match parseNum (c :: rest) with
        | Except.error u => Except.error u
        | Except.ok (n, r) => Except.ok (PyVal.int (n : Int), r)

/-- Parse the members of a JSON object after its opening brace. -/
def parseMembers : Nat → List Char → Except Unit (List (String × PyVal) × List Char)
  | 0, _ => Except.error ()
  | Nat.succ fuel, cs =>
    match skipWs cs with
    | [] => Except.error ()
    | c :: rest =>
      if c = chQuote then
        match parseStrChars rest with
        | Except.error u => Except.error u
        | Except.ok (k, r1) =>
          match skipWs r1 with
          | c2 :: r2 =>
            if c2 = (':') then
              match parseV fuel r2 with
              | Except.error u => Except.error u
              | Except.ok (v, r3) =>
                match skipWs r3 with
                | c3 :: r4 =>
                  if c3 = (',') then
                    match parseMembers fuel r4 with
                    | Except.error u => Except.error u
                    | Except.ok (ms, r5) => Except.ok ((String.mk k, v) :: ms, r5)
                  else if c3 = chRBrace then Except.ok ([(String.mk k, v)], r4)
                  else Except.error ()
                | [] => Except.error ()
            else Except.error ()
          | [] => Except.error ()
      else Except.error ()

/-- Parse the items of a JSON array after its opening bracket. -/
def parseItems : Nat → List Char → Except Unit (List PyVal × List Char)
  | 0, _ => Except.error ()
  | Nat.succ fuel, cs =>
    match parseV fuel cs with
    | Except.error u => Except.error u
    | Except.ok (v, r1) =>
      match skipWs r1 with
      | c :: r2 =>
        if c = (',') then
          match parseItems fuel r2 with
          | Except.error u => Except.error u
          | Except.ok (vs, r3) => Except.ok (v :: vs, r3)
        else if c = (']') then Except.ok ([v], r2)
        else Except.error ()
      | [] => Except.error ()

end

/-- Modelled from the spec: json.loads from the Python standard library
(absent from src): strict parsing of a whole document, raising
JSONDecodeError on any failure or trailing garbage. -/
def json_loads (s : String) : Except PyErr PyVal :=
  match parseV (s.length + 1) s.toList with
  | Except.ok (v, rest) =>
    if (skipWs rest).isEmpty then Except.ok v else Except.error PyErr.jsonDecodeError
  | Except.error _ => Except.error PyErr.jsonDecodeError

/-- Python str.replace of every single quote by a double quote, as used by
the argument of the retry in tgbot._deserialize. -/
def replaceQuotes (s : String) : String :=
  String.mk (s.toList.map (fun c => if c = chSQuote then chQuote else c))

/-- tgbot.py lines 305 to 310, BotUpdateHandlerMixin._deserialize: strict
json.loads first, and on JSONDecodeError one retry with single quotes
replaced by double quotes; an error of the retry is propagated. -/
def _deserialize (msg : String) : Except PyErr PyVal :=
  match json_loads msg with
  | Except.ok v => Except.ok v
  | Except.error _ => json_loads (replaceQuotes msg)

/-
tgbot.py: BotCommandBase and BotCommandManagerMixin.
-/

/-- tgbot.py lines 31 to 36, the BotCommandBase.description setter.  The
try body evaluates desc.capitalize()[:25]; only a string has a capitalize
attribute, so any other value (None included) raises AttributeError, and
the except clause catches TypeError alone, storing the class name. -/
def description_setter (clsName : String) (desc : PyVal) : Except PyErr String :=
  let body : Except PyErr String :=
    match desc with
    | PyVal.str s => Except.ok (String.mk ((pyCapitalize s).toList.take 25))
    | _ => Except.error PyErr.attributeError
  match body with
  | Except.error PyErr.typeError => Except.ok clsName
  | r => r

/-- A registered command object: the dynamically created class name, the
callback (modelled as an opaque identifier) and the stored description. -/
structure BotCommand where
  className : String
  callback : Nat
  descr : String

/-- tgbot.py lines 152 to 163, BotCommandManagerMixin.add_commands.  For
each name and callback pair: when self.commands already holds the name the
loop continues, touching nothing; otherwise a class named after the
capitalized command is created and instantiated with description None,
which makes the description setter raise (see description_setter). -/
def add_commands : List (String × BotCommand) → List (String × Nat) →
    Except PyErr (List (String × BotCommand))
  | commands, [] => Except.ok commands
  | commands, (name, cb) :: rest =>
    match assocGet commands name with
    | Option.some _ => add_commands commands rest
    | Option.none =>
      match description_setter (pyCapitalize name) PyVal.none with
      | Except.error e => Except.error e
      | Except.ok d =>
        add_commands ((name, BotCommand.mk (pyCapitalize name) cb d) :: commands) rest

/-
tgbot.py: BotUpdateHandlerMixin.
-/

/-- An item put on the pending command queue or the query queue by
process_message: a ParsedCommand or a ParsedQuery. -/
inductive Enq where
  | cmd (chatId : PyVal) (name argsText : String)
  | query (chatId : PyVal) (params : List (String × PyVal))
deriving Repr

/-- tgbot.py lines 287 to 289, the entity loop of process_message: for
every entity, entity, subscripted at type and compared with bot_command;
a match overwrites cmd_end with that entity, subscripted at length, so the
last matching entity wins; the accumulator is None before the loop,
mirroring cmd_end being unbound. -/
def scan_entities : List PyVal → Option PyVal → Except PyErr (Option PyVal)
  | [], acc => Except.ok acc
  | e :: rest, acc =>
    match pySubscr e ("type") with
    | Except.error err => Except.error err
    | Except.ok t =>
      match t with
      | PyVal.str s =>
        if s = ("bot_command") then
          match pySubscr e ("length") with
          | Except.error err => Except.error err
          | Except.ok l => scan_entities rest (Option.some l)
        else scan_entities rest acc
      | _ => scan_entities rest acc

/-- The command branch of process_message, tgbot.py lines 285 to 292.
After the entity loop, cmd_end still unbound raises NameError at the slice
message[1:cmd_end]; a non-integer cmd_end raises TypeError there; with an
integer cmd_end the name is message[1:cmd_end] and the arguments text is
message[cmd_end:].  Iterating a non-list entities value either raises
TypeError at the first subscript of its element or, when it yields no
element at all, leaves cmd_end unbound. -/
def command_branch (chat_id : PyVal) (message : String) (msg_obj : PyVal) :
    Except PyErr (Option Enq) :=
  match pySubscr msg_obj ("entities") with
  | Except.error e => Except.error e
  | Except.ok (PyVal.list entities) =>
    match scan_entities entities Option.none with
    | Except.error e => Except.error e
    | Except.ok Option.none => Except.error PyErr.nameError
    | Except.ok (Option.some (PyVal.int n)) =>
      Except.ok (Option.some (Enq.cmd chat_id (pySlice message 1 n) (pySliceFrom message n)))
    | Except.ok (Option.some _) => Except.error PyErr.typeError
  | Except.ok (PyVal.str s) =>
    if s.isEmpty then Except.error PyErr.nameError else Except.error PyErr.typeError
  | Except.ok (PyVal.dict d) =>
    if d.isEmpty then Except.error PyErr.nameError else Except.error PyErr.typeError
  | Except.ok _ => Except.error PyErr.typeError

/-- The query branch of process_message, tgbot.py lines 293 to 297: the
message text is deserialized, and a dict result is enqueued as a query;
any other result is dropped. -/
def query_branch (chat_id : PyVal) (message : String) : Except PyErr (Option Enq) :=
  match _deserialize message with
  | Except.error e => Except.error e
  | Except.ok (PyVal.dict d) => Except.ok (Option.some (Enq.query chat_id d))
  | Except.ok _ => Except.ok Option.none

/-- The try body of process_message, tgbot.py lines 282 to 297: extract
chat id and text, then take the command branch when the text starts with
the slash marker and the query branch otherwise.  A non-string text value
raises AttributeError at message.startswith. -/
def process_message_body (msg_obj : PyVal) : Except PyErr (Option Enq) :=
  match pySubscr msg_obj ("chat") with
  | Except.error e => Except.error e
  | Except.ok chat =>
    match pySubscr chat ("id") with
    | Except.error e => Except.error e
    | Except.ok chat_id =>
      match pySubscr msg_obj ("text") with
      | Except.error e => Except.error e
      | Except.ok (PyVal.str message) =>
        if startsWithSlash message then command_branch chat_id message msg_obj
        else query_branch chat_id message
      | Except.ok _ => Except.error PyErr.attributeError

/-- tgbot.py lines 277 to 303, BotUpdateHandlerMixin.process_message: the
try body with an except clause that swallows JSONDecodeError, TypeError
and KeyError, dropping the update; every other exception propagates. -/
def process_message (msg_obj : PyVal) : Except PyErr (Option Enq) :=
  match process_message_body msg_obj with
  | Except.error PyErr.jsonDecodeError => Except.ok Option.none
  | Except.error PyErr.typeError => Except.ok Option.none
  | Except.error PyErr.keyError => Except.ok Option.none
  | r => r

/-- tgbot.py lines 269 to 275, BotUpdateHandlerMixin.process_update:
msg_obj is update.get at message, or update.get at edited_message when the
former is falsy; a truthy msg_obj is passed to process_message and a falsy
one is skipped. -/
def process_update (u : PyVal) : Except PyErr (Option Enq) :=
  match pyGet u ("message") with
  | Except.error e => Except.error e
  | Except.ok m =>
    let next : Except PyErr PyVal :=
      if pyTruthy m then Except.ok m else pyGet u ("edited_message")
    match next with
    | Except.error e => Except.error e
    | Except.ok msg_obj =>
      if pyTruthy msg_obj then process_message msg_obj else Except.ok Option.none

/-- The offset tracking state of BotUpdateHandlerMixin: class attributes
offset, last_update_id and last_update_date (a timestamp in seconds, None
before any update). -/
structure OffsetSt where
  offset : Int
  last_update_id : Int
  last_update_date : Option Int
deriving Repr, DecidableEq

/-- The class attribute defaults of BotUpdateHandlerMixin, tgbot.py lines
197 to 203: offset 1, last_update_id 0, last_update_date None. -/
def initialOffsetSt : OffsetSt :=
  OffsetSt.mk 1 0 Option.none

/-- The reset period of 7 days, tgbot.py line 201, in seconds. -/
def reset_period : Int := 604800

/-- tgbot.py lines 230 to 235, reset_period_expired: the difference of the
current time and last_update_date compared with 7 days; subtracting a None
date raises TypeError, which the except clause turns into False. -/
def reset_period_expired (now : Int) (st : OffsetSt) : Bool :=
  match st.last_update_date with
  | Option.none => false
  | Option.some d => decide (now - d > reset_period)

/-- tgbot.py lines 214 to 217, recalculate_lud: unconditional overwrite of
last_update_date with the given timestamp. -/
def recalculate_lud (st : OffsetSt) (date : Int) : OffsetSt :=
  OffsetSt.mk st.offset st.last_update_id (Option.some date)

/-- tgbot.py lines 219 to 224, recalculate_luid: when the reset period has
expired the candidate replaces last_update_id unconditionally, otherwise
the maximum of the stored id and the candidate is kept. -/
def recalculate_luid (now : Int) (st : OffsetSt) (luid : Int) : OffsetSt :=
  if reset_period_expired now st then
    OffsetSt.mk st.offset luid st.last_update_date
  else
    OffsetSt.mk st.offset (max st.last_update_id luid) st.last_update_date

/-- tgbot.py lines 226 to 228, recalculate_offset: offset becomes
last_update_id plus one. -/
def recalculate_offset (st : OffsetSt) : OffsetSt :=
  OffsetSt.mk (st.last_update_id + 1) st.last_update_id st.last_update_date

/-- The drain loop of process_updates, tgbot.py lines 259 to 262: each
queued update contributes max(update[update_id], update_id) to the running
maximum and is passed to process_update; enqueued items are collected and
any uncaught exception aborts the loop. -/
def process_updates_loop : List PyVal → Int → List Enq → (Int × List Enq × Option PyErr)
  | [], uid, outs => (uid, outs.reverse, Option.none)
  | u :: rest, uid, outs =>
    match pySubscr u ("update_id") with
    | Except.error e => (uid, outs.reverse, Option.some e)
    | Except.ok (PyVal.int i) =>
      match process_update u with
      | Except.error e => (max i uid, outs.reverse, Option.some e)
      | Except.ok Option.none => process_updates_loop rest (max i uid) outs
      | Except.ok (Option.some o) => process_updates_loop rest (max i uid) (o :: outs)
    | Except.ok _ => (uid, outs.reverse, Option.some PyErr.typeError)

/-- tgbot.py lines 252 to 267, BotUpdateHandlerMixin.process_updates: the
queue is drained by process_updates_loop; line 264 then evaluates
msg_obj.get(date), but msg_obj is not a variable of process_updates (it is
local to process_update), so a NameError is raised there, before the calls
of recalculate_lud, recalculate_luid and recalculate_offset on lines 265
to 267 can run; the offset state is returned unchanged together with the
items enqueued by the loop and the raised exception. -/
def process_updates (st : OffsetSt) (updates : List PyVal) :
    OffsetSt × List Enq × Option PyErr :=
  match process_updates_loop updates 0 [] with
  | (_, outs, Option.some e) => (st, outs, Option.some e)
  | (_, outs, Option.none) => (st, outs, Option.some PyErr.nameError)

/-
aggregation.py: the Aggregator, the QueryEngine collaborator of the spec.
-/

/-- Modelled from the spec: ISO-8601 timestamp acceptance of
datetime.fromisoformat from the Python standard library (absent from src).
The model accepts exactly the nineteen character shape
YYYY-MM-DDTHH:MM:SS used by every embedded input. -/
def isoShapeOk (s : String) : Bool :=
  match s.toList with
  | [y1, y2, y3, y4, s1, m1, m2, s2, d1, d2, t, h1, h2, s3, n1, n2, s4, c1, c2] =>
    y1.isDigit && y2.isDigit && y3.isDigit && y4.isDigit &&
    m1.isDigit && m2.isDigit && d1.isDigit && d2.isDigit &&
    h1.isDigit && h2.isDigit && n1.isDigit && n2.isDigit &&
    c1.isDigit && c2.isDigit &&
    s1 = ('-') && s2 = ('-') && t = ('T') && s3 = (':') && s4 = (':')
  | _ => false

/-- Modelled from the spec: datetime.fromisoformat (standard library,
absent from src) raises TypeError on a non-string argument and ValueError
on a string that is not a well-formed timestamp; the converted datetime is
only ever consumed by the MongoDB pipeline, which is external, so the
model keeps no converted value. -/
def fromisoformat (v : PyVal) : Except PyErr Unit :=
  match v with
  | PyVal.str s => if isoShapeOk s then Except.ok () else Except.error PyErr.valueError
  | _ => Except.error PyErr.typeError

/-- The state an Aggregator holds after construction: the three raw
parameter values and the list of missing parameter names. -/
structure Aggregator where
  dt_from : PyVal
  dt_upto : PyVal
  dt_missing : List String
deriving Repr

/-- aggregation.py lines 15 to 30, Aggregator.__init__: each of dt_from,
dt_upto and group_type is read with params.get; a truthy dt_from or
dt_upto is converted by datetime.fromisoformat (whose exceptions
propagate) while a falsy one appends its name to the missing list; a falsy
group_type appends its name; the missing list is therefore built in the
order dt_from, dt_upto, group_type. -/
def Aggregator.init (params : List (String × PyVal)) : Except PyErr Aggregator :=
  let dtf := (assocGet params ("dt_from")).getD PyVal.none
  let dtu := (assocGet params ("dt_upto")).getD PyVal.none
  let gt := (assocGet params ("group_type")).getD PyVal.none
  let step1 : Except PyErr (List String) :=
    if pyTruthy dtf then
      match fromisoformat dtf with
      | Except.error e => Except.error e
      | Except.ok _ => Except.ok []
    else Except.ok [("dt_from")]
  match step1 with
  | Except.error e => Except.error e
  | Except.ok m1 =>
    let step2 : Except PyErr (List String) :=
      if pyTruthy dtu then
        match fromisoformat dtu with
        | Except.error e => Except.error e
        | Except.ok _ => Except.ok m1
      else Except.ok (m1 ++ [("dt_upto")])
    match step2 with
    | Except.error e => Except.error e
    | Except.ok m2 =>
      let m3 := if pyTruthy gt then m2 else m2 ++ [("group_type")]
      Except.ok (Aggregator.mk dtf dtu m3)

/-- aggregation.py lines 81 to 87, Aggregator.aggregate.  With nothing
missing the MongoDB pipeline result is serialized and returned; the
pipeline runs on an external database, so its serialized result is passed
in as pipelineResult.  Otherwise the missing names are joined with a comma
and reported, with a plural s when more than one is missing. -/
def Aggregator.aggregate (a : Aggregator) (pipelineResult : String) : String :=
  if a.dt_missing.isEmpty then pipelineResult
  else
    ("Provide param") ++ (if a.dt_missing.length > 1 then ("s") else ("")) ++
      (" ") ++ String.intercalate (", ") a.dt_missing ++ (".")

/-
main.py: the query executor stage.
-/

/-- main.py lines 100 to 106, one iteration of the handle_query loop for a
dequeued ParsedQuery: the call agg.aggregate(**params) unpacks the parsed
params as keyword arguments, but Aggregator.aggregate (aggregation.py line
81) accepts no parameter besides self, so any non-empty params raises
TypeError: aggregate got an unexpected keyword argument; only an empty
params dict reaches aggregate and enqueues a ResultItem. -/
def handle_query_step (agg : Aggregator) (pipelineResult : String) (chat : PyVal)
    (params : List (String × PyVal)) : Except PyErr (PyVal × String) :=
  if params.isEmpty then Except.ok (chat, agg.aggregate pipelineResult)
  else Except.error PyErr.typeError

/-
Concrete inputs used by the theorems below.
-/

/-- A message dict with the given chat id value, text and entities list. -/
def mkMsg (chatVal : PyVal) (text : String) (entities : List PyVal) : PyVal :=
  PyVal.dict [(("chat"), PyVal.dict [(("id"), chatVal)]),
              (("text"), PyVal.str text),
              (("entities"), PyVal.list entities)]

/-- A bot_command entity with the given offset and length. -/
def botCmdEntity (off len : Int) : PyVal :=
  PyVal.dict [(("type"), PyVal.str ("bot_command")),
              (("offset"), PyVal.int off),
              (("length"), PyVal.int len)]

/-- A mention entity, which is not a bot_command entity. -/
def mentionEntity : PyVal :=
  PyVal.dict [(("type"), PyVal.str ("mention")),
              (("offset"), PyVal.int 0),
              (("length"), PyVal.int 2)]

/-- An update carrying only its identifier, with no message object. -/
def mkBareUpdate (i : Int) : PyVal :=
  PyVal.dict [(("update_id"), PyVal.int i)]

/-- The batch of the C1 scenario: update ids 10, 12, 11 in one batch. -/
def batchC1 : List PyVal := [mkBareUpdate 10, mkBareUpdate 12, mkBareUpdate 11]

/-- A single update whose message carries a date of 1000. -/
def updC5 : PyVal :=
  PyVal.dict [(("update_id"), PyVal.int 5),
              (("message"),
               PyVal.dict [(("chat"), PyVal.dict [(("id"), PyVal.int 1)]),
                           (("text"), PyVal.str ("hi")),
                           (("date"), PyVal.int 1000)])]

/-- An offset state that already holds a stored timestamp of 500. -/
def stC5 : OffsetSt := OffsetSt.mk 3 2 (Option.some 500)

/-- A command marker message whose entities hold no bot_command entity. -/
def msgC4 : PyVal := mkMsg (PyVal.int 1) ("/x") [mentionEntity]

/-- A message holding two bot_command entities, as Telegram produces for a
text with two commands: the first spans 5 characters, the second 6. -/
def twoCmdMsg : PyVal :=
  mkMsg (PyVal.int 1) ("/help /start") [botCmdEntity 0 5, botCmdEntity 6 6]

/-- The single quoted query text of the C8 scenario. -/
def sqInput : String :=
  "\x7b\x27dt_from\x27:\x272022-09-01T00:00:00\x27,\x27dt_upto\x27:\x272022-12-31T23:59:59\x27,\x27group_type\x27:\x27month\x27\x7d"

/-- The same query text with double quotes. -/
def dqInput : String :=
  "\x7b\x22dt_from\x22:\x222022-09-01T00:00:00\x22,\x22dt_upto\x22:\x222022-12-31T23:59:59\x22,\x22group_type\x22:\x22month\x22\x7d"

/-- The object both C8 inputs ought to denote. -/
def queryObjC8 : PyVal :=
  PyVal.dict [(("dt_from"), PyVal.str ("2022-09-01T00:00:00")),
              (("dt_upto"), PyVal.str ("2022-12-31T23:59:59")),
              (("group_type"), PyVal.str ("month"))]

/-- Parsed query params holding dt_from and dt_upto but no group_type. -/
def paramsC6 : List (String × PyVal) :=
  [(("dt_from"), PyVal.str ("2022-09-01T00:00:00")),
   (("dt_upto"), PyVal.str ("2022-12-31T23:59:59"))]

/-- The Aggregator state produced by construction from paramsC6. -/
def aggC6 : Aggregator :=
  Aggregator.mk (PyVal.str ("2022-09-01T00:00:00"))
    (PyVal.str ("2022-12-31T23:59:59")) [("group_type")]

/-- The Aggregator state of the running program, which main.py line 212
constructs with no params at all. -/
def aggMain : Aggregator :=
  Aggregator.mk PyVal.none PyVal.none [("dt_from"), ("dt_upto"), ("group_type")]

/-- A registered command object for the start command. -/
def startCommandObj : BotCommand := BotCommand.mk ("Start") 0 ("Start")

/-- A registry that already maps the start command. -/
def registryW : List (String × BotCommand) := [(("start"), startCommandObj)]

/-
Theorems settling the claims.
-/

/-- C1: the claim states that after processing a batch the stored offset is
max of the seen update ids plus one (or candidate plus one after the reset
period), and that the batch 10, 12, 11 yields offset 13.  The code breaks
this: process_updates raises NameError on the undefined msg_obj before any
recalculation, leaving the offset at its initial value 1; only the
recalculation layer itself, run directly on the batch maximum 12, would
produce 13. -/
theorem c1_offset_never_recalculated :
    process_updates initialOffsetSt batchC1 =
      (initialOffsetSt, [], Option.some PyErr.nameError) ∧
    initialOffsetSt.offset = 1 ∧
    (recalculate_offset (recalculate_luid 0 initialOffsetSt 12)).offset = 13 :=
  ⟨rfl, rfl, rfl⟩

/-- C3: the claim states that every consumed ParsedQuery yields exactly one
ResultItem, the aggregate text forwarded unconditionally.  The code breaks
this: handle_query calls agg.aggregate(**params) while Aggregator.aggregate
accepts no parameter besides self, so the sole query params of the scenario
raise TypeError and no ResultItem is produced; the first conjunct fixes the
Aggregator state the running program holds. -/
theorem c3_query_executor_raises_type_error :
    Aggregator.init [] = Except.ok aggMain ∧
    handle_query_step aggMain ("") (PyVal.int 1)
      [(("group_type"), PyVal.str ("month"))] = Except.error PyErr.typeError :=
  ⟨rfl, rfl⟩

/-- C4: the claim states that a message whose text starts with the command
marker but whose entities hold no bot_command entity is dropped silently
with no exception.  The code breaks this: the entity loop never assigns
cmd_end, so the slice raises NameError, which the except clause (catching
only JSONDecodeError, TypeError and KeyError) does not swallow. -/
theorem c4_no_command_entity_raises_name_error :
    process_message msgC4 = Except.error PyErr.nameError := rfl

/-- C5: the claim states that after draining a batch the Dispatcher stores
the latest timestamp seen, falling back to the stored one, and that this
step completes without error.  The code breaks this: process_updates
raises NameError on the undefined msg_obj, so the stored timestamp is
never touched and the step never completes without error. -/
theorem c5_timestamp_update_raises_name_error :
    process_updates stC5 [updC5] = (stC5, [], Option.some PyErr.nameError) ∧
    stC5.last_update_date = Option.some 500 :=
  ⟨rfl, rfl⟩

/-- C6: the claim states that the aggregate text reports the first missing
parameter in the order dt_from, dt_upto, group_type, and that a
ParsedQuery missing only group_type yields a ResultItem naming
group_type.  The Aggregator itself does report group_type as missing for
such params, but the code breaks the ResultItem half: handle_query passes
the params to aggregate, which accepts none, so TypeError is raised and no
ResultItem is produced. -/
theorem c6_group_type_reported_but_no_result_item :
    Aggregator.init paramsC6 = Except.ok aggC6 ∧
    Aggregator.aggregate aggC6 ("") = ("Provide param group_type.") ∧
    handle_query_step aggMain ("") (PyVal.int 7) paramsC6 =
      Except.error PyErr.typeError :=
  ⟨rfl, rfl, rfl⟩

/-- C7 counterexample: the claim states that the command name is the text
up to the length of the leading bot_command entity, minus the marker.  On
a message with two bot_command entities of lengths 5 and 6 the code uses
the last length 6, producing a name with a trailing blank and swallowing
the second command into the name, while the leading entity of length 5
would produce the name help with argsText holding both blanks. -/
theorem c7_leading_entity_counterexample :
    process_message twoCmdMsg =
      Except.ok (Option.some (Enq.cmd (PyVal.int 1) ("help ") ("/start"))) ∧
    pySlice ("/help /start") 1 5 = ("help") ∧
    pySliceFrom ("/help /start") 5 = (" /start") ∧
    (("help ") : String) ≠ ("help") ∧
    (("/start") : String) ≠ (" /start") :=
  ⟨rfl, rfl, rfl, by decide, by decide⟩

/-- C7 (amended): for every message whose text starts with the command
marker and whose entity scan ends on a bot_command entity of integer
length n, the command name is text[1:n] and argsText is text[n:], where n
comes from the LAST bot_command entity of the list, not the leading one;
the scenario text /help extra text with its single entity of length 5 then
yields the ParsedCommand with name help and argsText of one blank followed
by extra text. -/
theorem c7_last_bot_command_entity (chatVal : PyVal) (text : String)
    (entities : List PyVal) (n : Int)
    (h1 : startsWithSlash text = true)
    (h2 : scan_entities entities Option.none =
      Except.ok (Option.some (PyVal.int n))) :
    process_message (mkMsg chatVal text entities) =
      Except.ok (Option.some
        (Enq.cmd chatVal (pySlice text 1 n) (pySliceFrom text n))) := by
  have hsub : pySubscr (mkMsg chatVal text entities) ("entities") =
      Except.ok (PyVal.list entities) := rfl
  have hb : process_message_body (mkMsg chatVal text entities) =
      command_branch chatVal text (mkMsg chatVal text entities) := by
    show (if startsWithSlash text = true then
            command_branch chatVal text (mkMsg chatVal text entities)
          else query_branch chatVal text) =
        command_branch chatVal text (mkMsg chatVal text entities)
    rw [h1]
    rfl
  have hc : command_branch chatVal text (mkMsg chatVal text entities) =
      Except.ok (Option.some
        (Enq.cmd chatVal (pySlice text 1 n) (pySliceFrom text n))) := by
    unfold command_branch
    rw [hsub]
    dsimp only
    rw [h2]
  unfold process_message
  rw [hb, hc]

/-- C7 witness: the amended theorem applied to the scenario message. -/
theorem c7_last_bot_command_entity_witness :
    process_message (mkMsg (PyVal.int 1) ("/help extra text") [botCmdEntity 0 5]) =
      Except.ok (Option.some (Enq.cmd (PyVal.int 1) ("help") (" extra text"))) := by
  have h := c7_last_bot_command_entity (PyVal.int 1) ("/help extra text")
    [botCmdEntity 0 5] 5 rfl rfl
  rw [h]
  rfl

/-- C8: message deserialization attempts strict JSON parsing first and on
failure retries once with single quotes replaced by double quotes, so the
single quoted scenario input, which strict parsing rejects, deserializes
to exactly the object of its double quoted form. -/
theorem c8_quote_tolerant_parse :
    json_loads sqInput = Except.error PyErr.jsonDecodeError ∧
    _deserialize sqInput = _deserialize dqInput ∧
    _deserialize dqInput = Except.ok queryObjC8 :=
  ⟨rfl, rfl, rfl⟩

/-- C9: the claim states that a stored description is the given string
capitalized and truncated to 25 characters, with empty or invalid
descriptions falling back to the command name.  The string half holds (a
31 character string is capitalized and cut to 25), but the code breaks the
fallback: a None description raises AttributeError, which the except
clause catching TypeError does not swallow, and an empty string is stored
as the empty string rather than the command name. -/
theorem c9_description_fallback_is_broken :
    description_setter ("Start") PyVal.none = Except.error PyErr.attributeError ∧
    description_setter ("Start") (PyVal.str ("")) = Except.ok ("") ∧
    description_setter ("Start") (PyVal.str ("let me introduce myself, friend")) =
      Except.ok ("Let me introduce myself, ") :=
  ⟨rfl, rfl, rfl⟩

/-- C10: re-registering a command name that the registry already maps is a
no-op: whatever the registry, the name and the new callback, add_commands
returns the registry unchanged, so the existing command object and its
callback survive. -/
theorem c10_reregistration_is_noop (commands : List (String × BotCommand))
    (name : String) (cb : Nat) (obj : BotCommand)
    (h : assocGet commands name = Option.some obj) :
    add_commands commands [(name, cb)] = Except.ok commands := by
  unfold add_commands
  rw [h]
  rfl

/-- C10 witness: re-registering the start command with a fresh callback
leaves the one-entry registry untouched. -/
theorem c10_reregistration_is_noop_witness :
    add_commands registryW [(("start"), 7)] = Except.ok registryW :=
  c10_reregistration_is_noop registryW ("start") 7 startCommandObj rfl
